import Mathlib

/-!
Verification development for the IB_MCP server core: the surface
configurator (`src/mcp_server/config.py`) and the proxy-endpoint pattern
(`src/mcp_server/routers/alerts.py`, `src/mcp_server/routers/scanner.py`).

The Python source is shallowly embedded: pure computations become Lean
functions, environment strings become explicit `String` arguments (with
`""` standing for an unset or empty environment variable, both of which
are falsy in Python), and the network becomes an explicit
`UpstreamOutcome` argument describing what the upstream did.
-/

namespace IBMCP

/-! ## Surface configurator (config.py)

`config.py` parses the raw `INCLUDED_TAGS` / `EXCLUDED_TAGS` strings by
removing newline and double-quote characters
(`.replace('\n', '').replace('"', '')`), splitting on commas, stripping
whitespace from each token, and discarding empty tokens.  The visible
module set `display_modules` is the catalog restricted to the included
tags (when the raw include string is truthy) minus the excluded tags
(when the raw exclude string is truthy). -/

/-- Whitespace characters stripped by Python's `str.strip()` (ASCII range). -/
def pyIsSpace (c : Char) : Bool :=
  c == ' ' || c == '\t' || c == '\n' || c == '\r' || c == '\x0b' || c == '\x0c'

/-- `s.replace('\n', '').replace('"', '')` from config.py: remove every
newline and double-quote character. -/
def cleanedChars (s : String) : List Char :=
  s.toList.filter (fun c => !(c == '\n' || c == '"'))

/-- Split a character list on commas, keeping empty chunks, as Python's
`str.split(',')` does. -/
def splitCommaAux : List Char → List Char → List (List Char)
  | [], acc => [acc.reverse]
  | c :: rest, acc =>
      if c == ',' then acc.reverse :: splitCommaAux rest []
      else splitCommaAux rest (c :: acc)

def splitComma (cs : List Char) : List (List Char) :=
  splitCommaAux cs []

/-- Python's `str.strip()`: drop leading and trailing whitespace. -/
def pyStrip (cs : List Char) : List Char :=
  ((cs.dropWhile pyIsSpace).reverse.dropWhile pyIsSpace).reverse

/-- Tag-string parsing from config.py: clean, split on commas, strip each
token, and keep only non-empty tokens.  The Python code builds a set; we
keep the token list, and all uses below depend only on membership. -/
def parseTags (s : String) : List String :=
  ((splitComma (cleanedChars s)).map (fun cs => String.mk (pyStrip cs))).filter
    (fun t => t ≠ "")

/-- A module catalog: ordered (name, description) pairs, the embedding of
the `ALL_MODULES` dict. -/
abbrev Catalog := List (String × String)

/-- `display_modules` from config.py.  `includedTags` / `excludedTags` are
the raw environment strings; `""` plays the role of Python-falsy
(`None` or empty). -/
def display_modules (catalog : Catalog) (includedTags excludedTags : String) :
    Catalog :=
  let base :=
    if includedTags ≠ "" then
      catalog.filter (fun p => decide (p.1 ∈ parseTags includedTags))
    else
      catalog
  if excludedTags ≠ "" then
    base.filter (fun p => decide (p.1 ∉ parseTags excludedTags))
  else
    base

/-- The fixed preamble `base_description` from config.py (a triple-quoted
Python string: leading newline, trailing space on the first line, trailing
newline). -/
def base_description : String :=
  "\nA comprehensive FastAPI wrapper for the Interactive Brokers Web API. \nThis API provides a clean, modern interface to interact with various IBKR functionalities.\n"

/-- Python tuple comparison on (name, description) pairs, as used by
`sorted(display_modules.items())`: lexicographic, name first. -/
def pairLe (p q : String × String) : Prop :=
  p.1 < q.1 ∨ (p.1 = q.1 ∧ p.2 ≤ q.2)

instance : DecidableRel pairLe := fun p q => by
  unfold pairLe; infer_instance

/-- `sorted(display_modules.items())`: a stable sort by Python tuple
comparison (insertion sort, which agrees with Python's stable `sorted`
and in particular with it on the duplicate-free keys of a dict). -/
def sortPairs (l : List (String × String)) : List (String × String) :=
  l.insertionSort pairLe

/-- `module_list_str` from config.py: the list header followed by one
line `* **name**: description` per visible module, in sorted order. -/
def module_list_str (mods : Catalog) : String :=
  (sortPairs mods).foldl
    (fun acc p => acc ++ "* **" ++ p.1 ++ "**: " ++ p.2 ++ "\n")
    "\n**Available Modules:**\n\n"

/-- `FINAL_DESCRIPTION` from config.py, as a function of the catalog and
the raw tag strings. -/
def FINAL_DESCRIPTION (catalog : Catalog) (includedTags excludedTags : String) :
    String :=
  base_description ++ module_list_str (display_modules catalog includedTags excludedTags)

/-! ## JSON values

A small JSON value type used to model Python dicts produced by
`pydantic.BaseModel.dict(...)` and the decoded payloads returned by
`response.json()`.  Objects keep field order, matching Python dicts. -/

inductive Json where
  | null
  | bool (b : Bool)
  | num (n : Int)
  | str (s : String)
  | arr (elems : List Json)
  | obj (fields : List (String × Json))

/-- The keys of a JSON object (empty for non-objects). -/
def Json.objKeys : Json → List String
  | .obj fields => fields.map Prod.fst
  | _ => []

/-- The fields of a JSON object (empty for non-objects). -/
def Json.objFields : Json → List (String × Json)
  | .obj fields => fields
  | _ => []

/-! A fuel-indexed recursive-descent parser for a core of JSON (null,
booleans, integers, escape-free strings, arrays, objects).  It models the
external `json.loads` collaborator that `response.json()` calls: the
source treats that call as a black box that either yields a value or
raises, and the theorems below are parametric in the decoder; this
concrete decoder only supplies witnesses and counterexamples. -/

def jsonSkipWs (cs : List Char) : List Char :=
  cs.dropWhile (fun c => c == ' ' || c == '\t' || c == '\n' || c == '\r')

/-- Parse a decimal digit run into a natural number accumulator. -/
def jsonDigits : List Char → Nat → Option (Nat × List Char)
  | c :: rest, acc =>
      if c.isDigit then
        match jsonDigits rest (acc * 10 + (c.toNat - '0'.toNat)) with
        | some r => some r
        | none => some (acc * 10 + (c.toNat - '0'.toNat), rest)
      else if acc = 0 then none else some (acc, c :: rest)
  | [], acc => if acc = 0 then none else some (acc, [])

/-- Parse the remainder of a string literal (opening quote consumed);
escapes are not supported. -/
def jsonStringChars : List Char → Option (List Char × List Char)
  | [] => none
  | c :: rest =>
      if c == '"' then some ([], rest)
      else
        match jsonStringChars rest with
        | some (s, r) => some (c :: s, r)
        | none => none

mutual

def jsonValue : Nat → List Char → Option (Json × List Char)
  | 0, _ => none
  | fuel + 1, cs =>
      match jsonSkipWs cs with
      | 'n' :: 'u' :: 'l' :: 'l' :: rest => some (.null, rest)
      | 't' :: 'r' :: 'u' :: 'e' :: rest => some (.bool true, rest)
      | 'f' :: 'a' :: 'l' :: 's' :: 'e' :: rest => some (.bool false, rest)
      | '"' :: rest =>
          match jsonStringChars rest with
          | some (s, r) => some (.str (String.mk s), r)
          | none => none
      | '-' :: rest =>
          match jsonDigits rest 0 with
          | some (n, r) => if 0 < n then some (.num (-(n : Int)), r) else none
          | none => none
      | '[' :: rest =>
          (match jsonSkipWs rest with
           | ']' :: r => some (.arr [], r)
           | other => match jsonElems fuel other with
                      | some (es, r) => some (.arr es, r)
                      | none => none)
      | '{' :: rest =>
          (match jsonSkipWs rest with
           | '}' :: r => some (.obj [], r)
           | other => match jsonMembers fuel other with
                      | some (fs, r) => some (.obj fs, r)
                      | none => none)
      | other =>
          match jsonDigits other 0 with
          | some (n, r) => some (.num (n : Int), r)
          | none => none

/-- Comma-separated array elements, consuming the closing bracket. -/
def jsonElems : Nat → List Char → Option (List Json × List Char)
  | 0, _ => none
  | fuel + 1, cs =>
      match jsonValue fuel cs with
      | some (j, rest) =>
          (match jsonSkipWs rest with
           | ',' :: r =>
               (match jsonElems fuel r with
                | some (es, r2) => some (j :: es, r2)
                | none => none)
           | ']' :: r => some ([j], r)
           | _ => none)
      | none => none

/-- Comma-separated object members, consuming the closing brace. -/
def jsonMembers : Nat → List Char → Option (List (String × Json) × List Char)
  | 0, _ => none
  | fuel + 1, cs =>
      match jsonSkipWs cs with
      | '"' :: rest =>
          (match jsonStringChars rest with
           | some (k, r) =>
               (match jsonSkipWs r with
                | ':' :: r2 =>
                    (match jsonValue fuel r2 with
                     | some (v, r3) =>
                         (match jsonSkipWs r3 with
                          | ',' :: r4 =>
                              (match jsonMembers fuel r4 with
                               | some (fs, r5) => some ((String.mk k, v) :: fs, r5)
                               | none => none)
                          | '}' :: r4 => some ([(String.mk k, v)], r4)
                          | _ => none)
                     | none => none)
                | _ => none)
           | none => none)
      | _ => none

end

/-- The decoder standing in for Python's `json.loads`: the whole input
must be one JSON value plus trailing whitespace. -/
def jsonParse (s : String) : Option Json :=
  match jsonValue (s.length + 1) s.toList with
  | some (j, rest) => if jsonSkipWs rest = [] then some j else none
  | none => none

/-! ## The proxy-endpoint pattern (alerts.py, scanner.py)

Every endpoint wraps its upstream call in the same try/except:
a 2xx response is decoded with `response.json()` and returned verbatim;
`raise_for_status()` turns a non-2xx response into an
`httpx.HTTPStatusError`, answered with the envelope
`{"error": "IBKR API Error", "status_code": ..., "detail": response.text}`;
an `httpx.RequestError` (no response at all) is answered with
`{"error": "Request Error", "detail": str(exc)}`.  A failure of
`response.json()` itself (2xx body that is not valid JSON) is caught by
neither handler and propagates. -/

/-- What the upstream did for one call: an HTTP response with a status
code and a body, or a transport-level failure with a description. -/
inductive UpstreamOutcome where
  | response (status : Nat) (body : String)
  | transportError (desc : String)
deriving Repr, DecidableEq

/-- The error envelope returned by every except-branch.  `status_code` is
`none` exactly when the envelope has no `status_code` field. -/
structure ErrorEnvelope where
  error : String
  status_code : Option Nat
  detail : String
deriving Repr, DecidableEq

/-- What an endpoint call produces: a decoded success payload, an error
envelope, or an uncaught exception escaping the handler. -/
inductive ProxyResult where
  | success (payload : Json)
  | envelope (e : ErrorEnvelope)
  | raised (exc : String)

def ProxyResult.isRaised : ProxyResult → Bool
  | .raised _ => true
  | _ => false

/-- `httpx.Response.raise_for_status` raises unless the status is 2xx. -/
def is2xx (status : Nat) : Bool :=
  decide (200 ≤ status) && decide (status < 300)

/-- The shared response-handling pattern of every proxy endpoint
(`get_alerts`, `create_or_modify_alert`, `run_scanner`, ...), parametric
in the JSON decoder used for `response.json()`. -/
def proxyCall (decode : String → Option Json) (outcome : UpstreamOutcome) :
    ProxyResult :=
  match outcome with
  | .response status body =>
      if is2xx status then
        match decode body with
        | some payload => .success payload
        | none => .raised "JSONDecodeError"
      else
        .envelope ⟨"IBKR API Error", some status, body⟩
  | .transportError desc => .envelope ⟨"Request Error", none, desc⟩

/-- `get_alerts` from alerts.py: a plain GET proxied through the shared
pattern (the account id only selects the upstream path). -/
def get_alerts (decode : String → Option Json) (accountId : String)
    (outcome : UpstreamOutcome) : ProxyResult :=
  let _path := "/iserver/account/" ++ accountId ++ "/alerts"
  proxyCall decode outcome

/-! ## Request models and outbound payloads -/

/-- `ConditionModel` from alerts.py.  `timeZone` and `triggerMethod`
default to `None`. -/
structure ConditionModel where
  type : Int
  conidex : String
  operator : String
  value : String
  logicBind : String
  timeZone : Option String
  triggerMethod : Option String

/-- `AlertRequest` from alerts.py.  `orderId` defaults to `None`
("omit for new alerts"). -/
structure AlertRequest where
  orderId : Option Int
  alertName : String
  alertMessage : String
  alertActive : Int
  conditions : List ConditionModel
  tif : String
  outsideRth : Bool
  iTtif : Bool

/-- One optional pydantic field under `exclude_none=True`: present in the
produced dict only when set. -/
def optJsonField (key : String) : Option Json → List (String × Json)
  | none => []
  | some j => [(key, j)]

/-- `ConditionModel` under `.dict(exclude_none=True)` (pydantic applies
the exclusion recursively to nested models). -/
def ConditionModel.dictExcludeNone (c : ConditionModel) : Json :=
  .obj ([("type", .num c.type),
         ("conidex", .str c.conidex),
         ("operator", .str c.operator),
         ("value", .str c.value),
         ("logicBind", .str c.logicBind)]
    ++ optJsonField "timeZone" (c.timeZone.map .str)
    ++ optJsonField "triggerMethod" (c.triggerMethod.map .str))

/-- The outbound JSON body of `create_or_modify_alert`:
`body.dict(exclude_none=True)` — fields in declaration order with
`None`-valued optionals omitted. -/
def AlertRequest.outboundPayload (b : AlertRequest) : Json :=
  .obj (optJsonField "orderId" (b.orderId.map .num)
    ++ [("alertName", .str b.alertName),
        ("alertMessage", .str b.alertMessage),
        ("alertActive", .num b.alertActive),
        ("conditions", .arr (b.conditions.map ConditionModel.dictExcludeNone)),
        ("tif", .str b.tif),
        ("outsideRth", .bool b.outsideRth),
        ("iTtif", .bool b.iTtif)])

/-- `create_or_modify_alert` from alerts.py: the shared proxy pattern,
paired with the JSON body it sends upstream. -/
def create_or_modify_alert (decode : String → Option Json) (accountId : String)
    (body : AlertRequest) (outcome : UpstreamOutcome) : ProxyResult × Json :=
  let _path := "/iserver/account/" ++ accountId ++ "/alert"
  (proxyCall decode outcome, body.outboundPayload)

/-- `HmdsScannerRequest` from scanner.py.  `filters: Any = Field(None)`;
a set value is an arbitrary JSON value. -/
structure HmdsScannerRequest where
  instrument : String
  locations : String
  scanCode : String
  secType : String
  filters : Option Json

/-- The outbound JSON body of `run_hmds_scanner`: `body.dict()` with no
exclusion, so an unset `filters` appears as an explicit `null`. -/
def HmdsScannerRequest.outboundPayload (b : HmdsScannerRequest) : Json :=
  .obj [("instrument", .str b.instrument),
        ("locations", .str b.locations),
        ("scanCode", .str b.scanCode),
        ("secType", .str b.secType),
        ("filters", b.filters.getD .null)]

/-- `run_hmds_scanner` from scanner.py: GET `/hmds/auth/init`, then
`raise_for_status()`, then POST `/hmds/scanner`.  The second component
logs the upstream calls actually dispatched, in order, with the JSON
payload sent (the init GET has no body).  Both `raise_for_status` and
`httpx.RequestError` from either call land in the same except-branches,
so a failing init short-circuits to the corresponding envelope. -/
def run_hmds_scanner (decode : String → Option Json) (body : HmdsScannerRequest)
    (initOutcome scannerOutcome : UpstreamOutcome) :
    ProxyResult × List (String × Option Json) :=
  match initOutcome with
  | .transportError desc =>
      (.envelope ⟨"Request Error", none, desc⟩, [("/hmds/auth/init", none)])
  | .response status initBody =>
      if is2xx status then
        (proxyCall decode scannerOutcome,
         [("/hmds/auth/init", none), ("/hmds/scanner", some body.outboundPayload)])
      else
        (.envelope ⟨"IBKR API Error", some status, initBody⟩,
         [("/hmds/auth/init", none)])

/-! ## The iServer scanner JSON→XML transform (run_scanner) -/

/-- A Python value interpolated into the XML f-string; `str()` renders
ints in decimal and strings verbatim. -/
inductive PyVal where
  | int (i : Int)
  | str (s : String)

def PyVal.render : PyVal → String
  | .int i => toString i
  | .str s => s

/-- `FilterItem` from scanner.py (`value: Any`). -/
structure FilterItem where
  name : String
  value : PyVal

/-- `ScannerSubscription` from scanner.py.  `filter` defaults to `None`. -/
structure ScannerSubscription where
  instrument : String
  type : String
  locationCode : String
  filter : Option (List FilterItem)

/-- The XML built by `run_scanner`: header element with `instrument`,
`type`, `locationCode` children in declaration order, then — only when
`body.filter` is truthy, i.e. set and non-empty — one `<filter>` block
with one `<item>` per list entry.  String concatenation mirrors the
source's f-strings. -/
def scannerXml (body : ScannerSubscription) : String :=
  let base := "<ScannerSubscription><instrument>" ++ body.instrument
    ++ "</instrument><type>" ++ body.type ++ "</type><locationCode>"
    ++ body.locationCode ++ "</locationCode>"
  let withFilter :=
    match body.filter with
    | some items =>
        if items.isEmpty then base
        else
          base
            ++ items.foldl
              (fun acc it => acc ++ "<item><name>" ++ it.name ++ "</name><value>"
                ++ it.value.render ++ "</value></item>")
              "<filter>"
            ++ "</filter>"
    | none => base
  withFilter ++ "</ScannerSubscription>"

/-- `run_scanner` from scanner.py: the shared proxy pattern, paired with
the XML payload it sends upstream. -/
def run_scanner (decode : String → Option Json) (body : ScannerSubscription)
    (outcome : UpstreamOutcome) : ProxyResult × String :=
  (proxyCall decode outcome, scannerXml body)

end IBMCP

namespace IBMCP

/-! ## Theorems: the proxy-endpoint pattern -/

/-- Claim C2: for every proxy endpoint, the returned value is a trichotomy
determined by the upstream outcome: a 2xx response whose body decodes as
JSON is returned unchanged; a non-2xx response yields exactly the
envelope `error = "IBKR API Error"`, `status_code` = upstream status,
`detail` = raw upstream body; a transport failure yields exactly
`error = "Request Error"` with the description and no `status_code`. -/
theorem claim2_proxy_trichotomy (decode : String → Option Json) :
    (∀ status body payload, is2xx status = true → decode body = some payload →
        proxyCall decode (.response status body) = .success payload)
    ∧ (∀ status body, is2xx status = false →
        proxyCall decode (.response status body)
          = .envelope ⟨"IBKR API Error", some status, body⟩)
    ∧ (∀ desc, proxyCall decode (.transportError desc)
          = .envelope ⟨"Request Error", none, desc⟩) := by
  refine ⟨fun status body payload h2 hdec => ?_, fun status body h2 => ?_,
    fun desc => rfl⟩
  · simp [proxyCall, h2, hdec]
  · simp [proxyCall, h2]

/-- Witness for C2 at concrete outcomes: a 200 with body `[1, 2]`, a 404
with body `no such account`, and a connection failure. -/
theorem claim2_witness :
    proxyCall jsonParse (.response 200 "[1, 2]") = .success (.arr [.num 1, .num 2])
    ∧ proxyCall jsonParse (.response 404 "no such account")
        = .envelope ⟨"IBKR API Error", some 404, "no such account"⟩
    ∧ proxyCall jsonParse (.transportError "Connection refused")
        = .envelope ⟨"Request Error", none, "Connection refused"⟩ :=
  ⟨(claim2_proxy_trichotomy jsonParse).1 200 "[1, 2]" (.arr [.num 1, .num 2]) rfl rfl,
   (claim2_proxy_trichotomy jsonParse).2.1 404 "no such account" rfl,
   (claim2_proxy_trichotomy jsonParse).2.2 "Connection refused"⟩

/-- Claim C6 counterexample: a 2xx upstream response whose body is not
valid JSON makes `response.json()` raise, and neither except-branch
(`httpx.HTTPStatusError`, `httpx.RequestError`) catches a JSON decode
error, so it escapes the proxy boundary — refuting the claim that no
upstream outcome lets an exception propagate. -/
theorem claim6_counterexample :
    proxyCall jsonParse (.response 200 "not json") = .raised "JSONDecodeError" := rfl

/-- Claim C6 as amended: for every upstream status outcome that is
non-2xx, and for every transport failure, the endpoint returns a
response object and never raises; a 2xx response also returns normally
whenever its body decodes as JSON.  (A 2xx body that is not valid JSON
does raise — the exclusion the counterexample forces.) -/
theorem claim6_amended (decode : String → Option Json) :
    (∀ status body, is2xx status = false →
        (proxyCall decode (.response status body)).isRaised = false)
    ∧ (∀ desc, (proxyCall decode (.transportError desc)).isRaised = false)
    ∧ (∀ status body payload, decode body = some payload →
        (proxyCall decode (.response status body)).isRaised = false) := by
  refine ⟨fun status body h2 => ?_, fun desc => rfl,
    fun status body payload hdec => ?_⟩
  · simp [proxyCall, h2, ProxyResult.isRaised]
  · by_cases h2 : is2xx status <;>
      simp [proxyCall, h2, hdec, ProxyResult.isRaised]

/-- Witness for C6 (amended) at a 503, a timeout, and a 200 with body
`{}`. -/
theorem claim6_witness :
    (proxyCall jsonParse (.response 503 "busy")).isRaised = false
    ∧ (proxyCall jsonParse (.transportError "timed out")).isRaised = false
    ∧ (proxyCall jsonParse (.response 200 "{}")).isRaised = false :=
  ⟨(claim6_amended jsonParse).1 503 "busy" rfl,
   (claim6_amended jsonParse).2.1 "timed out",
   (claim6_amended jsonParse).2.2 200 "{}" (.obj []) rfl⟩

/-- An HMDS scanner request whose optional `filters` field is unset, as
for the claim C3 scenario. -/
def hmdsNoFilters : HmdsScannerRequest :=
  ⟨"STK", "STK.US.MAJOR", "TOP_PERC_GAIN", "STK", none⟩

/-- Claim C3 counterexample: the HMDS scanner endpoint sends
`body.dict()` with no `exclude_none`, so a request whose optional
`filters` field is absent still produces an outbound payload with an
explicit `"filters": null` placeholder — refuting the claim that every
absent optional field is omitted. -/
theorem claim3_counterexample :
    hmdsNoFilters.filters = none
    ∧ ("filters", Json.null) ∈ (hmdsNoFilters.outboundPayload).objFields := by
  refine ⟨rfl, ?_⟩
  simp [hmdsNoFilters, HmdsScannerRequest.outboundPayload, Json.objFields]

/-- Claim C3 as amended: absent optional fields are omitted from the
outbound payload of the alert-creation operation (which uses
`exclude_none=True`) — in particular an unset `orderId` — but the HMDS
scanner operation uses a plain `body.dict()`, so its absent `filters`
field is serialized as an explicit null. -/
theorem claim3_amended :
    (∀ b : AlertRequest, b.orderId = none →
        "orderId" ∉ (AlertRequest.outboundPayload b).objKeys)
    ∧ (∀ b : HmdsScannerRequest, b.filters = none →
        ("filters", Json.null) ∈ (HmdsScannerRequest.outboundPayload b).objFields) := by
  constructor
  · intro b h
    simp [AlertRequest.outboundPayload, h, optJsonField, Json.objKeys]
  · intro b h
    simp [HmdsScannerRequest.outboundPayload, h, Json.objFields]

/-- A new-alert request (no `orderId`), used to witness C3. -/
def sampleAlertNew : AlertRequest :=
  ⟨none, "Price Alert for IBM", "IBM crossed 175", 1,
   [⟨3, "265598@SMART", ">=", "175", "and", none, none⟩], "GTC", false, false⟩

/-- Witness for C3 (amended) at a concrete new-alert request and a
concrete filterless HMDS request. -/
theorem claim3_witness :
    "orderId" ∉ (AlertRequest.outboundPayload sampleAlertNew).objKeys
    ∧ ("filters", Json.null) ∈ (HmdsScannerRequest.outboundPayload hmdsNoFilters).objFields :=
  ⟨claim3_amended.1 sampleAlertNew rfl, claim3_amended.2 hmdsNoFilters rfl⟩

/-- Claim C4: in the two-step HMDS scanner operation, a failing
prerequisite (`GET /hmds/auth/init` non-2xx or transport failure)
short-circuits: the only dispatched call is the init call and the result
is the normalized envelope of the prerequisite's failure; the primary
`POST /hmds/scanner` is dispatched (after the init call, with the
request's payload) exactly when the prerequisite succeeded, and the
result is then the shared proxy handling of the primary outcome. -/
theorem claim4_hmds_prerequisite (decode : String → Option Json)
    (body : HmdsScannerRequest) :
    (∀ desc scannerOutcome,
        run_hmds_scanner decode body (.transportError desc) scannerOutcome
          = (.envelope ⟨"Request Error", none, desc⟩, [("/hmds/auth/init", none)]))
    ∧ (∀ status initBody scannerOutcome, is2xx status = false →
        run_hmds_scanner decode body (.response status initBody) scannerOutcome
          = (.envelope ⟨"IBKR API Error", some status, initBody⟩,
             [("/hmds/auth/init", none)]))
    ∧ (∀ status initBody scannerOutcome, is2xx status = true →
        (run_hmds_scanner decode body (.response status initBody) scannerOutcome).2
            = [("/hmds/auth/init", none),
               ("/hmds/scanner", some (HmdsScannerRequest.outboundPayload body))]
        ∧ (run_hmds_scanner decode body (.response status initBody) scannerOutcome).1
            = proxyCall decode scannerOutcome) := by
  refine ⟨fun desc scannerOutcome => rfl,
    fun status initBody scannerOutcome h2 => ?_,
    fun status initBody scannerOutcome h2 => ?_⟩
  · simp [run_hmds_scanner, h2]
  · simp [run_hmds_scanner, h2]

/-- An HMDS scanner request with filters set, used to witness C4. -/
def sampleHmdsRequest : HmdsScannerRequest :=
  ⟨"STK", "STK.US.MAJOR", "TOP_PERC_GAIN", "STK",
   some (.arr [.obj [("code", .str "price"), ("value", .num 1)]])⟩

/-- Witness for C4 at a transport-failing init, a 404 init, and a 200
init followed by a 200 scan. -/
theorem claim4_witness :
    run_hmds_scanner jsonParse sampleHmdsRequest
        (.transportError "Connection reset") (.response 200 "{}")
      = (.envelope ⟨"Request Error", none, "Connection reset"⟩,
         [("/hmds/auth/init", none)])
    ∧ run_hmds_scanner jsonParse sampleHmdsRequest
        (.response 404 "Not Found") (.response 200 "{}")
      = (.envelope ⟨"IBKR API Error", some 404, "Not Found"⟩,
         [("/hmds/auth/init", none)])
    ∧ (run_hmds_scanner jsonParse sampleHmdsRequest
        (.response 200 "") (.response 200 "{}")).2
      = [("/hmds/auth/init", none),
         ("/hmds/scanner", some (HmdsScannerRequest.outboundPayload sampleHmdsRequest))]
    ∧ (run_hmds_scanner jsonParse sampleHmdsRequest
        (.response 200 "") (.response 200 "{}")).1
      = proxyCall jsonParse (.response 200 "{}") :=
  ⟨(claim4_hmds_prerequisite jsonParse sampleHmdsRequest).1 "Connection reset"
      (.response 200 "{}"),
   (claim4_hmds_prerequisite jsonParse sampleHmdsRequest).2.1 404 "Not Found"
      (.response 200 "{}") rfl,
   ((claim4_hmds_prerequisite jsonParse sampleHmdsRequest).2.2 200 ""
      (.response 200 "{}") rfl).1,
   ((claim4_hmds_prerequisite jsonParse sampleHmdsRequest).2.2 200 ""
      (.response 200 "{}") rfl).2⟩

/-- Claim C5: the JSON→XML transform of the iServer scanner renders the
spec's scenario request to exactly the element shown — `instrument`,
`type`, `locationCode` children in that order, then one `<filter>` block
with one `<item>` holding `<name>volumeAbove</name>` and
`<value>10000</value>`.  Determinism is inherent: `scannerXml` is a pure
function of the validated request. -/
theorem claim5_scanner_xml_scenario :
    scannerXml ⟨"STK", "TOP_PERC_GAIN", "STK.US.MAJOR",
        some [⟨"volumeAbove", .int 10000⟩]⟩
      = "<ScannerSubscription><instrument>STK</instrument><type>TOP_PERC_GAIN</type><locationCode>STK.US.MAJOR</locationCode><filter><item><name>volumeAbove</name><value>10000</value></item></filter></ScannerSubscription>" := rfl

/-- Claim C10: `if body.filter:` is false for an empty list just as for
`None`, so an empty filter list renders exactly like an absent one, and
the scenario's element-only XML contains no `filter` tag at all. -/
theorem claim10_empty_filter_eq_absent :
    (∀ instrument ty locationCode,
        scannerXml ⟨instrument, ty, locationCode, some []⟩
          = scannerXml ⟨instrument, ty, locationCode, none⟩)
    ∧ ¬ "<filter>".toList <:+:
        (scannerXml ⟨"STK", "TOP_PERC_GAIN", "STK.US.MAJOR", some []⟩).toList := by
  constructor
  · intro instrument ty locationCode; rfl
  · set_option maxRecDepth 10000 in decide

/-! ## Theorems: the surface configurator -/

/-- The spec's visibility formula, stated in the spec's own words:
`(inc empty ? C : C ∩ parse(inc)) − parse(exc)`, reading "inc empty" as
the raw include string being empty (the code's Python truthiness test). -/
def visibleSpec (catalog : Catalog) (includedTags excludedTags : String) :
    Catalog :=
  (if includedTags = "" then catalog
   else catalog.filter (fun p => decide (p.1 ∈ parseTags includedTags))).filter
    (fun p => decide (p.1 ∉ parseTags excludedTags))

theorem parseTags_empty : parseTags "" = [] := rfl

theorem display_modules_eq_visibleSpec (catalog : Catalog) (inc exc : String) :
    display_modules catalog inc exc = visibleSpec catalog inc exc := by
  by_cases hexc : exc = ""
  · subst hexc
    by_cases hinc : inc = "" <;>
      simp [display_modules, visibleSpec, hinc, parseTags_empty]
  · by_cases hinc : inc = "" <;>
      simp [display_modules, visibleSpec, hinc, hexc]

/-- Claim C1 counterexample: an include string consisting of one space
parses to the same (empty) token set as the empty include string, but
the code branches on raw-string truthiness (`if INCLUDED_TAGS:`), so the
two visible sets differ — refuting the claim that the result depends
only on the parsed token sets across whitespace formatting. -/
theorem claim1_counterexample :
    parseTags " " = parseTags ""
    ∧ display_modules [("A", "a")] " " "" ≠ display_modules [("A", "a")] "" "" :=
  ⟨rfl, by decide⟩

/-- Claim C1 as amended: the visible set equals
`(inc empty ? C : C ∩ parse(inc)) − parse(exc)` where "inc empty" means
the raw include string is empty, and the result depends only on the
parsed token sets together with whether the raw include string is empty
(a whitespace-only include string is non-empty yet parses to the empty
set, so raw emptiness must be part of the determinant). -/
theorem claim1_amended (catalog : Catalog) (inc exc : String) :
    display_modules catalog inc exc = visibleSpec catalog inc exc
    ∧ (∀ inc' exc', (inc = "" ↔ inc' = "") →
        (∀ t, t ∈ parseTags inc ↔ t ∈ parseTags inc') →
        (∀ t, t ∈ parseTags exc ↔ t ∈ parseTags exc') →
        display_modules catalog inc exc = display_modules catalog inc' exc') := by
  refine ⟨display_modules_eq_visibleSpec catalog inc exc,
    fun inc' exc' hemp hi he => ?_⟩
  rw [display_modules_eq_visibleSpec, display_modules_eq_visibleSpec]
  unfold visibleSpec
  have h1 : (if inc = "" then catalog
        else catalog.filter (fun p => decide (p.1 ∈ parseTags inc)))
      = (if inc' = "" then catalog
        else catalog.filter (fun p => decide (p.1 ∈ parseTags inc'))) := by
    by_cases h : inc = ""
    · simp [h, hemp.mp h]
    · have h' : ¬inc' = "" := fun hh => h (hemp.mpr hh)
      rw [if_neg h, if_neg h']
      exact List.filter_congr (fun p _ => decide_eq_decide.mpr (hi p.1))
  rw [h1]
  exact List.filter_congr (fun p _ => decide_eq_decide.mpr (not_congr (he p.1)))

/-- Witness for C1 (amended): catalog `{A, B}`, include `A,B`
reformatted as ` "B" , A ` (same token set, still non-empty), exclude
`B` unchanged. -/
theorem claim1_witness :
    display_modules [("A", "a"), ("B", "b")] "A,B" "B"
      = display_modules [("A", "a"), ("B", "b")] " \"B\" , A " "B" :=
  (claim1_amended [("A", "a"), ("B", "b")] "A,B" "B").2 " \"B\" , A " "B"
    (by decide)
    (fun t => by
      rw [show parseTags "A,B" = ["A", "B"] from rfl,
        show parseTags " \"B\" , A " = ["B", "A"] from rfl]
      simp only [List.mem_cons, List.not_mem_nil, or_false]
      exact or_comm)
    (fun t => Iff.rfl)

instance : IsTotal (String × String) pairLe :=
  ⟨fun p q => by
    unfold pairLe
    rcases lt_trichotomy p.1 q.1 with h | h | h
    · exact Or.inl (Or.inl h)
    · rcases le_total p.2 q.2 with h2 | h2
      · exact Or.inl (Or.inr ⟨h, h2⟩)
      · exact Or.inr (Or.inr ⟨h.symm, h2⟩)
    · exact Or.inr (Or.inl h)⟩

instance : IsTrans (String × String) pairLe :=
  ⟨fun p q r hpq hqr => by
    unfold pairLe at *
    rcases hpq with h1 | ⟨h1, h1'⟩ <;> rcases hqr with h2 | ⟨h2, h2'⟩
    · exact Or.inl (h1.trans h2)
    · exact Or.inl (h2 ▸ h1)
    · exact Or.inl (h1 ▸ h2)
    · exact Or.inr ⟨h1.trans h2, h1'.trans h2'⟩⟩

/-- Claim C7: the rendered description is a deterministic function of the
visible set (it is a pure function here, so two renders of the same
inputs are definitionally byte-identical); the module lines are sorted
by Python tuple comparison, whose first component is the module name;
and the spec scenario — catalog `{A: a, B: b, C: c}`, include `A,B`,
exclude `B` — renders the fixed preamble, the list header, and exactly
the one line `* **A**: a`. -/
theorem claim7_description_rendering :
    (∀ mods : Catalog, (sortPairs mods).Sorted pairLe)
    ∧ FINAL_DESCRIPTION [("A", "a"), ("B", "b"), ("C", "c")] "A,B" "B"
        = base_description ++ "\n**Available Modules:**\n\n* **A**: a\n" :=
  ⟨fun mods => List.sorted_insertionSort pairLe mods, rfl⟩

theorem display_modules_subset (catalog : Catalog) (inc exc : String) :
    display_modules catalog inc exc ⊆ catalog := by
  unfold display_modules
  by_cases hinc : inc = "" <;> by_cases hexc : exc = "" <;>
    simp [hinc, hexc]

/-- Claim C8: an include token naming a module absent from the catalog is
silently ignored — it never appears in the visible set (which is always
a subset of the catalog) and every catalog module whose name is included
and not excluded is still visible; and an empty visible set is valid,
rendering the description with an empty module-list section. -/
theorem claim8_unknown_tags_ignored (catalog : Catalog) (inc exc : String) :
    (∀ t, t ∉ catalog.map Prod.fst →
        t ∉ (display_modules catalog inc exc).map Prod.fst)
    ∧ (∀ n d, (n, d) ∈ catalog → n ∈ parseTags inc → n ∉ parseTags exc →
        (n, d) ∈ display_modules catalog inc exc)
    ∧ (display_modules catalog inc exc = [] →
        FINAL_DESCRIPTION catalog inc exc
          = base_description ++ "\n**Available Modules:**\n\n") := by
  refine ⟨fun t ht hmem => ht ?_, fun n d hmem hin hnot => ?_, fun hempty => ?_⟩
  · exact List.map_subset Prod.fst (display_modules_subset catalog inc exc) hmem
  · unfold display_modules
    by_cases hinc : inc = ""
    · by_cases hexc : exc = ""
      · simp [hinc, hexc, hmem]
      · simp [hinc, hexc, List.mem_filter, hmem, hnot]
    · by_cases hexc : exc = ""
      · simp [hinc, hexc, List.mem_filter, hmem, hin]
      · simp [hinc, hexc, List.mem_filter, hmem, hin, hnot]
  · unfold FINAL_DESCRIPTION module_list_str
    rw [hempty]
    rfl

/-- Witness for C8: catalog `{Alerts}`, include `Alerts,Bogus` — the
unknown `Bogus` is absent and `Alerts` still visible; and include/exclude
both `Alerts` yields the empty visible set and the empty list section. -/
theorem claim8_witness :
    "Bogus" ∉ (display_modules [("Alerts", "a")] "Alerts,Bogus" "").map Prod.fst
    ∧ ("Alerts", "a") ∈ display_modules [("Alerts", "a")] "Alerts,Bogus" ""
    ∧ FINAL_DESCRIPTION [("Alerts", "a")] "Alerts" "Alerts"
        = base_description ++ "\n**Available Modules:**\n\n" :=
  ⟨(claim8_unknown_tags_ignored [("Alerts", "a")] "Alerts,Bogus" "").1 "Bogus"
      (by decide),
   (claim8_unknown_tags_ignored [("Alerts", "a")] "Alerts,Bogus" "").2.1 "Alerts" "a"
      (by decide) (by decide) (by decide),
   (claim8_unknown_tags_ignored [("Alerts", "a")] "Alerts" "Alerts").2.2 (by decide)⟩

/-- Claim C9: include/exclude matching is case-sensitive exact string
equality: a single-token include differing from a catalog name (for
instance only in letter case) does not select that module, and the same
token used as the exclude does not remove it. -/
theorem claim9_case_sensitive (catalog : Catalog) (n d t : String)
    (hmem : (n, d) ∈ catalog) (hne : t ≠ n) (htok : parseTags t = [t]) :
    n ∉ (display_modules catalog t "").map Prod.fst
    ∧ (n, d) ∈ display_modules catalog "" t := by
  have htne : t ≠ "" := by
    intro h
    rw [h, parseTags_empty] at htok
    exact List.noConfusion htok
  constructor
  · intro hvis
    rcases List.mem_map.mp hvis with ⟨p, hp, hfst⟩
    have hp' : p ∈ catalog.filter (fun p => decide (p.1 ∈ parseTags t)) := by
      simpa [display_modules, htne] using hp
    have hmt := (List.mem_filter.mp hp').2
    rw [htok] at hmt
    simp only [decide_eq_true_eq, List.mem_singleton] at hmt
    exact hne (hmt ▸ hfst)
  · have hkeep : (n, d) ∈ catalog.filter (fun p => decide (p.1 ∉ parseTags t)) := by
      rw [List.mem_filter, htok]
      refine ⟨hmem, ?_⟩
      simp only [decide_eq_true_eq, List.mem_singleton]
      exact fun h => hne h.symm
    simpa [display_modules, htne] using hkeep

/-- Witness for C9: the catalog name `Alerts` against the lower-case tag
`alerts` — the include misses it and the exclude leaves it visible. -/
theorem claim9_witness :
    "Alerts" ∉ (display_modules [("Alerts", "desc")] "alerts" "").map Prod.fst
    ∧ ("Alerts", "desc") ∈ display_modules [("Alerts", "desc")] "" "alerts" :=
  claim9_case_sensitive [("Alerts", "desc")] "Alerts" "desc" "alerts"
    (by decide) (by decide) rfl

example : jsonParse "null" = some .null := rfl
example : jsonParse "{}" = some (.obj []) := rfl
example : jsonParse "[1, 2]" = some (.arr [.num 1, .num 2]) := rfl
example : jsonParse "\x7b\"a\": -3\x7d" = some (.obj [("a", .num (-3))]) := rfl
example : jsonParse "hello" = none := rfl
example : jsonParse "" = none := rfl
example : parseTags "A,B" = ["A", "B"] := by decide
example : parseTags " A , \"B\"\n" = ["A", "B"] := by decide
example : parseTags "" = [] := by decide
example : parseTags " " = [] := by decide
example : display_modules [("A", "a"), ("B", "b"), ("C", "c")] "A,B" "B" = [("A", "a")] := by decide
example : display_modules [("A", "a")] " " "" = [] := by decide
example : display_modules [("A", "a")] "" "" = [("A", "a")] := by decide

end IBMCP
